import Mathlib

/-!
Shallow embedding of the Database_Query_Chatbot repository
(`chatbot_app/utils.py`, `chatbot_app/views.py`, `chatbot_app/chatbot.py`)
and proofs about its validation gate, request orchestrator, summarizer and
chatbot-module pipeline.

Machine conventions used throughout:
* Python strings are Lean `String`s, manipulated through their `List Char`
  data; `str.lower()` is `pyLower` (the sources only ever feed ASCII SQL),
  `str.strip()` is `pyStrip`, `sep.join(...)` is `pyJoin`.
* The two regular expressions of `validate_query`
  (`(?:from|join)\s+(\w+)` via `re.findall`, and `from\s+\w+` via
  `re.search`) are embedded as the executable scanners `scanTables` and
  `hasFromClause` below, which reproduce the left-to-right,
  non-overlapping, greedy matching of Python's `re` on these patterns.
* External effects (the Gemini model, the MySQL connection) are oracle
  inputs, and each pipeline additionally returns the list of external
  calls it performed, so that "no downstream call happens" is a statement
  about that list.
* Python exceptions are `Except` / `Option` results.
-/

/-- Python `\s` on the ASCII range: space, tab, newline, carriage return,
vertical tab, form feed. -/
def pyIsSpace (c : Char) : Bool :=
  c == ' ' || c == '\t' || c == '\n' || c == '\r' || c == Char.ofNat 11 || c == Char.ofNat 12

/-- Python `\w` on the ASCII range: letters, digits and underscore. -/
def pyIsWord (c : Char) : Bool := c.isAlphanum || c == '_'

/-- Python `str.lower()` (the sources only feed ASCII SQL text). -/
def pyLower (s : String) : String := String.mk (s.data.map Char.toLower)

/-- Python `str.strip()` on a list of characters: drop whitespace on both ends. -/
def pyStripL (l : List Char) : List Char :=
  ((l.dropWhile pyIsSpace).reverse.dropWhile pyIsSpace).reverse

/-- Python `str.strip()`. -/
def pyStrip (s : String) : String := String.mk (pyStripL s.data)

/-- Python `sep.join(parts)`. -/
def pyJoin (sep : String) : List String → String
  | [] => ""
  | [x] => x
  | x :: y :: xs => x ++ sep ++ pyJoin sep (y :: xs)

/-- Boolean "is a prefix of" on character lists (Python `str.startswith`). -/
def prefB : List Char → List Char → Bool
  | [], _ => true
  | _ :: _, [] => false
  | a :: as, b :: bs => a == b && prefB as bs

/-- Boolean substring containment on character lists (Python `needle in hay`). -/
def substrB : List Char → List Char → Bool
  | n, [] => n.isEmpty
  | n, c :: rest => prefB n (c :: rest) || substrB n rest

/-- Lexicographic strict order on character lists by code point
(Python string `<`). -/
def lexLt : List Char → List Char → Bool
  | [], [] => false
  | [], _ :: _ => true
  | _ :: _, [] => false
  | a :: as, b :: bs => a < b || (a == b && lexLt as bs)

/-- Boolean `≤` on strings by code points (Python string comparison). -/
def strLeB (a b : String) : Bool := !(lexLt b.data a.data)

/-- Insert into a sorted list of strings (helper for Python `sorted`). -/
def insertSorted (x : String) : List String → List String
  | [] => [x]
  | y :: ys => if strLeB x y then x :: y :: ys else y :: insertSorted x ys

/-- Python `sorted` on strings (insertion sort; Python's sort is by code points). -/
def pySorted (l : List String) : List String := l.foldr insertSorted []

/-- A single-quote character as a string (used by the error messages of
`validate_query`). -/
def apos : String := String.mk [Char.ofNat 39]

-- Basic lemmas about the string helpers.

theorem prefB_iff (n h : List Char) : prefB n h = true ↔ ∃ t, h = n ++ t := by
  induction n generalizing h with
  | nil => simp [prefB]
  | cons a as ih =>
    cases h with
    | nil => simp [prefB]
    | cons b bs =>
      simp only [prefB, Bool.and_eq_true, beq_iff_eq]
      constructor
      · rintro ⟨rfl, hp⟩
        obtain ⟨t, rfl⟩ := (ih bs).mp hp
        exact ⟨t, rfl⟩
      · rintro ⟨t, ht⟩
        injection ht with h1 h2
        exact ⟨h1.symm, (ih bs).mpr ⟨t, h2⟩⟩

theorem substrB_iff (n h : List Char) :
    substrB n h = true ↔ ∃ a b, h = a ++ (n ++ b) := by
  induction h with
  | nil =>
    constructor
    · intro hmp
      have hn : n = [] := by simpa [substrB, List.isEmpty_iff] using hmp
      exact ⟨[], [], by simp [hn]⟩
    · rintro ⟨a, b, hab⟩
      have hn : n = [] := by
        rcases List.append_eq_nil.mp hab.symm with ⟨rfl, h2⟩
        exact (List.append_eq_nil.mp h2).1
      simp [substrB, List.isEmpty_iff, hn]
  | cons c rest ih =>
    simp only [substrB, Bool.or_eq_true]
    constructor
    · rintro (hp | hs)
      · obtain ⟨t, ht⟩ := (prefB_iff n (c :: rest)).mp hp
        exact ⟨[], t, ht⟩
      · obtain ⟨a, b, rfl⟩ := ih.mp hs
        exact ⟨c :: a, b, rfl⟩
    · rintro ⟨a, b, hab⟩
      cases a with
      | nil =>
        left
        exact (prefB_iff n (c :: rest)).mpr ⟨b, by simpa using hab⟩
      | cons a0 as =>
        right
        simp only [List.cons_append, List.cons.injEq] at hab
        exact ih.mpr ⟨as, b, hab.2⟩

theorem substrB_append_left {n h : List Char} (a : List Char)
    (hs : substrB n h = true) : substrB n (a ++ h) = true := by
  obtain ⟨x, y, rfl⟩ := (substrB_iff n h).mp hs
  exact (substrB_iff n _).mpr ⟨a ++ x, y, by simp⟩

theorem substrB_append_right {n h : List Char} (b : List Char)
    (hs : substrB n h = true) : substrB n (h ++ b) = true := by
  obtain ⟨x, y, rfl⟩ := (substrB_iff n h).mp hs
  exact (substrB_iff n _).mpr ⟨x, y ++ b, by simp⟩

theorem substrB_self (n : List Char) : substrB n n = true :=
  (substrB_iff n n).mpr ⟨[], [], by simp⟩

theorem substrB_mem {n h : List Char} (hs : substrB n h = true) :
    ∀ c ∈ n, c ∈ h := by
  obtain ⟨a, b, rfl⟩ := (substrB_iff n h).mp hs
  intro c hc
  simp [hc]

theorem dropWhile_eq_nil_iff_all (p : Char → Bool) (l : List Char) :
    l.dropWhile p = [] ↔ ∀ c ∈ l, p c = true := by
  induction l with
  | nil => simp
  | cons a as ih =>
    by_cases ha : p a = true
    · simp [List.dropWhile, ha, ih]
    · simp [List.dropWhile, ha]

theorem takeWhile_all (p : Char → Bool) (l : List Char) :
    ∀ c ∈ l.takeWhile p, p c = true := by
  induction l with
  | nil => simp
  | cons a as ih =>
    by_cases ha : p a = true
    · intro c hc
      simp only [List.takeWhile, ha] at hc
      rcases List.mem_cons.mp hc with rfl | hc'
      · exact ha
      · exact ih c hc'
    · intro c hc
      simp only [List.takeWhile, Bool.not_eq_true] at hc
      rw [Bool.not_eq_true] at ha
      simp [ha] at hc

theorem pyStripL_eq_nil_iff (l : List Char) :
    pyStripL l = [] ↔ ∀ c ∈ l, pyIsSpace c = true := by
  unfold pyStripL
  rw [List.reverse_eq_nil_iff, dropWhile_eq_nil_iff_all]
  constructor
  · intro h c hc
    have hsplit := (List.takeWhile_append_dropWhile pyIsSpace l).symm
    rw [hsplit] at hc
    rcases List.mem_append.mp hc with h1 | h1
    · exact takeWhile_all pyIsSpace l c h1
    · exact h c (by simpa using h1)
  · intro h c hc
    have hc' : c ∈ l.dropWhile pyIsSpace := by simpa using hc
    have hl : c ∈ l := by
      have hm := List.mem_append_right (l.takeWhile pyIsSpace) hc'
      rwa [List.takeWhile_append_dropWhile] at hm
    exact h c hl

theorem toLower_of_space {c : Char} (h : pyIsSpace c = true) : c.toLower = c := by
  simp only [pyIsSpace, Bool.or_eq_true, beq_iff_eq] at h
  rcases h with ((((rfl | rfl) | rfl) | rfl) | rfl) | rfl <;> decide

/-!
## The validation gate — `chatbot_app/utils.py`, `validate_query`

`validate_query(query, valid_tables)` performs, in order:
empty check, forbidden-keyword substring scan, SELECT-prefix check,
table extraction via `re.findall(r'(?:from|join)\s+(\w+)', query_lower)`,
unknown-table check with "did you mean" suggestions, FROM-clause check via
`re.search(r'from\s+\w+', query_lower)`, comment-marker check, and a
multiple-statement check (`';' in query[:-1]`); it returns `True` on
success and raises `QueryValidationError(msg)` otherwise, embedded here as
`Except String Bool` (`.error msg` is the raised exception).
-/

/-- One attempted match of `(?:from|join)\s+(\w+)` at the current position:
a literal `from` or `join`, then one or more whitespace characters, then a
greedy maximal nonempty run of word characters (the capture). Returns the
capture and the remainder of the input after the match. -/
def matchAtP (l : List Char) : Option (String × List Char) :=
  if prefB "from".data l || prefB "join".data l then
    let r := l.drop 4
    let sp := r.takeWhile pyIsSpace
    let r2 := r.dropWhile pyIsSpace
    let w := r2.takeWhile pyIsWord
    let r3 := r2.dropWhile pyIsWord
    if sp.isEmpty || w.isEmpty then none
    else some (String.mk w, r3)
  else none

/-- Left-to-right, non-overlapping scan of `re.findall(r'(?:from|join)\s+(\w+)', _)`:
try a match at the current position; on success emit the capture and resume
after the match, otherwise advance one character. The fuel argument only
forces termination: every step consumes at least one character, so any
`fuel ≥ length` computes the full scan. -/
def scanTablesF : Nat → List Char → List String
  | 0, _ => []
  | _ + 1, [] => []
  | fuel + 1, c :: rest =>
    match matchAtP (c :: rest) with
    | some (s, r) => s :: scanTablesF fuel r
    | none => scanTablesF fuel rest

/-- `re.findall(r'(?:from|join)\s+(\w+)', l)`, as a list of captures. -/
def scanTables (l : List Char) : List String := scanTablesF l.length l

/-- Whether `re.search(r'from\s+\w+', _)` matches at the current position. -/
def fromMatchAt (l : List Char) : Bool :=
  prefB "from".data l &&
    !((l.drop 4).takeWhile pyIsSpace).isEmpty &&
    !(((l.drop 4).dropWhile pyIsSpace).takeWhile pyIsWord).isEmpty

/-- `re.search(r'from\s+\w+', l) is not None`. -/
def hasFromClause : List Char → Bool
  | [] => false
  | c :: rest => fromMatchAt (c :: rest) || hasFromClause rest

/-- The forbidden-keyword denylist of `validate_query` (utils.py lines 102-105),
in source order. -/
def forbidden_keywords : List String :=
  ["drop", "truncate", "delete", "update", "insert",
   "alter", "create", "grant", "revoke"]

/-- The first forbidden keyword that occurs as a substring of the lowercased
query (the loop of utils.py lines 107-109 raises at the first hit). -/
def findForbidden (query_lower : String) : Option String :=
  forbidden_keywords.find? (fun kw => substrB kw.data query_lower.data)

/-- `tables_in_query = set(re.findall(table_pattern, query_lower))` — the set
of referenced-table candidates, as a duplicate-free list. -/
def tablesInQuery (query_lower : String) : List String :=
  (scanTables query_lower.data).dedup

/-- `invalid_tables = tables_in_query - valid_tables_lower` (utils.py line 124). -/
def invalidTables (query_lower : String) (valid_tables : List String) : List String :=
  (tablesInQuery query_lower).filter
    (fun t => !((valid_tables.map pyLower).contains t))

/-- `similar_tables` for one invalid table (utils.py lines 131-134): the valid
tables whose lowercased name contains the invalid name as a substring. -/
def similarOf (invalid_table : String) (valid_tables : List String) : List String :=
  valid_tables.filter (fun vt => substrB invalid_table.data (pyLower vt).data)

/-- The "did you mean" suggestion line built for one invalid table
(utils.py line 136). -/
def suggestionLine (invalid_table : String) (valid_tables : List String) : String :=
  "Instead of " ++ apos ++ invalid_table ++ apos ++ ", did you mean: " ++
    pyJoin ", " (similarOf invalid_table valid_tables) ++ "?"

/-- The `suggestions` list of utils.py lines 128-136: one line per invalid
table that has at least one similar valid table. -/
def suggestionsOf (query_lower : String) (valid_tables : List String) : List String :=
  (invalidTables query_lower valid_tables).filterMap
    (fun it =>
      if (similarOf it valid_tables).isEmpty then none
      else some (suggestionLine it valid_tables))

/-- The full `QueryValidationError` message raised for invalid tables
(utils.py lines 138-144). -/
def invalidMsg (query_lower : String) (valid_tables : List String) : String :=
  "Invalid tables in query: " ++ pyJoin ", " (invalidTables query_lower valid_tables) ++ ". " ++
    (if (suggestionsOf query_lower valid_tables).isEmpty
     then "\nValid tables are: " ++ pyJoin ", " (pySorted valid_tables)
     else "\n" ++ pyJoin "\n" (suggestionsOf query_lower valid_tables))

/-- `validate_query(query, valid_tables)` (utils.py lines 79-164).
`.ok true` is the Python `return True`; `.error msg` is
`raise QueryValidationError(msg)`. The checks appear in source order. -/
def validate_query (query : String) (valid_tables : List String) : Except String Bool :=
  if (pyStripL query.data).isEmpty then .error "Empty query is not allowed"
  else
    match findForbidden (pyLower query) with
    | some keyword => .error ("Query contains forbidden operation: " ++ keyword)
    | none =>
      if !(prefB "select".data (pyStrip (pyLower query)).data) then
        .error "Only SELECT queries are allowed"
      else if (tablesInQuery (pyLower query)).isEmpty then
        .error "No valid tables found in query"
      else if !((invalidTables (pyLower query) valid_tables).isEmpty) then
        .error (invalidMsg (pyLower query) valid_tables)
      else if !(hasFromClause (pyLower query).data) then
        .error "Invalid query structure: Missing FROM clause"
      else if substrB "--".data query.data || substrB "/*".data query.data then
        .error "SQL comments are not allowed"
      else if query.data.dropLast.contains ';' then
        .error "Multiple SQL statements are not allowed"
      else .ok true

/-!
## The deterministic summarizer — `chatbot_app/views.py`, `ChatbotView._format_summary`

Result-set values are modelled by `Value`: SQL NULL, integers and strings
(the value domain the claims exercise; Python's `str(v)` and `f"{v:.2f}"`
are embedded on this domain, the latter failing — `none` — on non-numeric
values exactly as Python raises `ValueError` there). A summarizer run that
raises is modelled as `none`.
-/

/-- A cell value of a result row: SQL NULL, an integer, or a string. -/
inductive Value where
  | vnull
  | vint (n : Int)
  | vstr (s : String)
deriving DecidableEq, Repr

/-- Python `str(v)` on the modelled value domain (`str(None) == "None"`). -/
def pyStr : Value → String
  | .vnull => "None"
  | .vint n => toString n
  | .vstr s => s

/-- Python `f"${v:.2f}"`: integers format as `$<n>.00`; `None` and strings
make the format call raise (`none`). -/
def fmtPrice : Value → Option String
  | .vint n => some ("$" ++ toString n ++ ".00")
  | _ => none

/-- `price_fields = ['ListPrice', 'StandardCost', 'UnitPrice']` (views.py line 118). -/
def priceFields : List String := ["ListPrice", "StandardCost", "UnitPrice"]

/-- `skip_fields = ['Name', 'ListPrice', 'StandardCost', 'UnitPrice']` (views.py line 125). -/
def skipFields : List String := ["Name", "ListPrice", "StandardCost", "UnitPrice"]

/-- The price-selection loop of views.py lines 119-122: the first price field
that is present with a non-`None` value (`break` happens only on that path). -/
def findPrice (d : List (String × Value)) : List String → Option Value
  | [] => none
  | f :: fs =>
    match List.lookup f d with
    | some v => if v == Value.vnull then findPrice d fs else some v
    | none => findPrice d fs

/-- `row_dict` built by views.py lines 106-108 (`row[i]` raises `IndexError`
when the row is shorter than the column list; duplicate column names cannot
occur by the ResultSet invariant, so an association list models the dict). -/
def rowDict (columns : List String) (row : List Value) : Option (List (String × Value)) :=
  if row.length < columns.length then none else some (columns.zip row)

/-- One iteration of the row loop of `_format_summary` (views.py lines 104-131):
the optional `Name` item, then the first usable price formatted with two
decimals, then every remaining non-null field as `col: val`, joined by
`" - "` behind the bullet prefix that the source file carries. -/
def formatRow (columns : List String) (row : List Value) : Option String :=
  match rowDict columns row with
  | none => none
  | some d =>
    match (match findPrice d priceFields with
           | some v => (fmtPrice v).map (fun s => [s])
           | none => some ([] : List String)) with
    | none => none
    | some priceItems =>
      some ("â€¢ " ++ pyJoin " - "
        ((match List.lookup "Name" d with
          | some v => [pyStr v]
          | none => []) ++ priceItems ++
         (d.filter (fun cv => !(skipFields.contains cv.1) && !(cv.2 == Value.vnull))).map
           (fun cv => cv.1 ++ ": " ++ pyStr cv.2)))

/-- Run `f` over the rows left to right, stopping at the first raised
exception (`none`) — the `for row in results` loop of `_format_summary`. -/
def mapRows {α β : Type} (f : α → Option β) : List α → Option (List β)
  | [] => some []
  | a :: as =>
    match f a with
    | none => none
    | some b =>
      match mapRows f as with
      | none => none
      | some bs => some (b :: bs)

/-- The header line `f"Found {n} result{'s' if n != 1 else ''}:"` (views.py line 102). -/
def headerStr (n : Nat) : String :=
  "Found " ++ toString n ++ " result" ++ (if n != 1 then "s" else "") ++ ":"

/-- `ChatbotView._format_summary(results, columns)` (views.py lines 96-133):
the fixed no-results message on an empty result list, otherwise the header
line followed by one formatted line per row, joined with newlines. -/
def format_summary (results : List (List Value)) (columns : List String) : Option String :=
  if results.isEmpty then some "No results found."
  else
    match mapRows (formatRow columns) results with
    | none => none
    | some lines => some (pyJoin "\n" (headerStr results.length :: lines))

/-!
## The request orchestrator — `chatbot_app/views.py`, `ChatbotView.post`

External collaborators are oracle inputs (`Oracles`); the handler returns
the HTTP response and the list of external calls it performed, in order.
Python exceptions raised by collaborators are `.error` values of `PyExc`,
mirroring the four exception classes the handler distinguishes.
-/

/-- The exception classes distinguished by `ChatbotView.post`'s handlers:
`DatabaseError`, `QueryValidationError`, `APIConfigError`, and any other
`Exception`. -/
inductive PyExc where
  | dbError (msg : String)
  | queryValidationError (msg : String)
  | apiConfigError (msg : String)
  | otherError (msg : String)
deriving DecidableEq, Repr

/-- A JSON body value: a string, or the serialized record list of the
success envelope's `results` field. -/
inductive BodyVal where
  | vs (s : String)
  | vrecords (rs : List (List (String × Value)))
deriving DecidableEq, Repr

/-- An HTTP response: status code plus JSON body as ordered key/value pairs. -/
structure Response where
  statusCode : Nat
  body : List (String × BodyVal)
deriving DecidableEq, Repr

/-- The external calls a pipeline can perform: SQL generation (model call),
`SHOW TABLES`, the validation gate, query execution, and the
summarization model call. -/
inductive Call where
  | callGenerate
  | callGetTables
  | callValidate (query : String)
  | callExecute (query : String)
  | callSummarizeModel
deriving DecidableEq, Repr

/-- Oracle outcomes of the orchestrator's collaborators:
`generate_sql_query(user_input)`, `get_table_names()`, and
`_execute_query(sql)` returning `(results, columns)`. -/
structure Oracles where
  genQuery : Except PyExc String
  tableNames : Except PyExc (List String)
  execQ : String → Except PyExc (List (List Value) × List String)

/-- The error envelopes of views.py lines 51-75: 400 with the real message
for `DatabaseError`/`QueryValidationError`, 500 with a generic message and
a details field for `APIConfigError` and for unclassified exceptions. -/
def errEnvelope (e : PyExc) (user_input : String) : Response :=
  match e with
  | .dbError m =>
    ⟨400, [("status", .vs "error"), ("error", .vs m), ("user_input", .vs user_input)]⟩
  | .queryValidationError m =>
    ⟨400, [("status", .vs "error"), ("error", .vs m), ("user_input", .vs user_input)]⟩
  | .apiConfigError m =>
    ⟨500, [("status", .vs "error"),
           ("error", .vs "API configuration error. Please contact the administrator."),
           ("details", .vs m), ("user_input", .vs user_input)]⟩
  | .otherError m =>
    ⟨500, [("status", .vs "error"), ("error", .vs "An unexpected error occurred."),
           ("details", .vs m), ("user_input", .vs user_input)]⟩

/-- `ChatbotView.post` (views.py lines 18-75). `input` is `none` when the
request body has no `input` key; Python's `if not user_input` also catches
the empty string. A `validate_query` error is the raised
`QueryValidationError`. A summarizer exception (the `none` branch; its
Python message is abstracted) falls into the generic handler. -/
def post (input : Option String) (o : Oracles) : Response × List Call :=
  match input with
  | none => (⟨400, [("error", .vs "No input provided")]⟩, [])
  | some user_input =>
    if user_input = "" then (⟨400, [("error", .vs "No input provided")]⟩, [])
    else
      match o.genQuery with
      | .error e => (errEnvelope e user_input, [.callGenerate])
      | .ok sql_query =>
        match o.tableNames with
        | .error e => (errEnvelope e user_input, [.callGenerate, .callGetTables])
        | .ok valid_tables =>
          match validate_query sql_query valid_tables with
          | .error msg =>
            (errEnvelope (.queryValidationError msg) user_input,
             [.callGenerate, .callGetTables, .callValidate sql_query])
          | .ok _ =>
            match o.execQ sql_query with
            | .error e =>
              (errEnvelope e user_input,
               [.callGenerate, .callGetTables, .callValidate sql_query,
                .callExecute sql_query])
            | .ok (results, columns) =>
              match format_summary results columns with
              | none =>
                (errEnvelope (.otherError "summary formatting failed") user_input,
                 [.callGenerate, .callGetTables, .callValidate sql_query,
                  .callExecute sql_query])
              | some summary =>
                (⟨200, [("status", .vs "success"), ("summary", .vs summary),
                        ("user_input", .vs user_input), ("sql_query", .vs sql_query),
                        ("results", .vrecords (results.map (fun row => columns.zip row)))]⟩,
                 [.callGenerate, .callGetTables, .callValidate sql_query,
                  .callExecute sql_query])

/-!
## The chatbot-module pipeline — `chatbot_app/chatbot.py`

`process_user_input` chains `generate_sql_query` → `execute_query` →
`summarize_results` inside one `try`, with no call to the validation gate.
The Gemini calls and the database are oracles; the deterministic
post-processing of the generated text is embedded (`chatbot_clean`).
-/

/-- One pass of `re.sub(r'```sql|```', '', _)`: at each position remove a
literal ` ```sql `, else a literal ` ``` `, else keep the character. Fuel
only forces termination (each step consumes at least one character). -/
def stripFencesF : Nat → List Char → List Char
  | 0, _ => []
  | _ + 1, [] => []
  | fuel + 1, c :: rest =>
    if prefB "```sql".data (c :: rest) then stripFencesF fuel ((c :: rest).drop 6)
    else if prefB "```".data (c :: rest) then stripFencesF fuel ((c :: rest).drop 3)
    else c :: stripFencesF fuel rest

/-- `re.sub(r'```sql|```', '', l)`. -/
def stripFences (l : List Char) : List Char := stripFencesF l.length l

/-- The deterministic post-processing of `generate_sql_query` in chatbot.py
lines 28-38: strip, remove code-fence markers, strip again, and append a
terminating `;` when absent. -/
def chatbot_clean (raw : String) : String :=
  let q := pyStrip (String.mk (stripFences (pyStrip raw).data))
  if q.data.getLast? = some ';' then q else q ++ ";"

/-- What the database driver hands back for one executed statement:
the cursor description (column names), the fetched rows, and `rowcount`. -/
structure DbOut where
  columns : List String
  rows : List (List Value)
  rowcount : Int

/-- Oracle outcomes of the chatbot pipeline's collaborators: the generation
model call (`response.text`), `cursor.execute` + fetch, and the
summarization model call. -/
structure ChatOracles where
  genRaw : Except String String
  dbRun : String → Except String DbOut
  sumRaw : Except String String

/-- The result shaping of `execute_query` (chatbot.py lines 40-47): rows as
column-keyed dicts when the statement starts with `select`
(case-insensitive, after strip), otherwise the affected-row count. -/
inductive ExecOut where
  | rowsOut (rs : List (List (String × Value)))
  | affected (n : Int)
deriving DecidableEq, Repr

/-- `execute_query`'s branch on the already-executed statement. -/
def execute_query_out (q : String) (d : DbOut) : ExecOut :=
  if prefB "select".data (pyStrip (pyLower q)).data then
    .rowsOut (d.rows.map (fun row => d.columns.zip row))
  else .affected d.rowcount

/-- The value of `process_user_input`: the success dict of chatbot.py
lines 68-73 or the `{"error": str(e)}` dict of line 75. -/
inductive ChatResult where
  | okR (user_input generated_query : String) (query_results : ExecOut) (summary : String)
  | errR (msg : String)

/-- `process_user_input(user_input)` (chatbot.py lines 63-75): generate,
execute, summarize, each step's exception short-circuiting into the error
dict; the second component lists the external calls in order. The
generated statement is executed by `cursor.execute` before `execute_query`
branches on its shape, so `callExecute` is recorded whenever generation
succeeded. -/
def process_user_input (user_input : String) (o : ChatOracles) : ChatResult × List Call :=
  match o.genRaw with
  | .error e => (.errR e, [.callGenerate])
  | .ok raw =>
    match o.dbRun (chatbot_clean raw) with
    | .error e => (.errR e, [.callGenerate, .callExecute (chatbot_clean raw)])
    | .ok d =>
      match o.sumRaw with
      | .error e =>
        (.errR e, [.callGenerate, .callExecute (chatbot_clean raw), .callSummarizeModel])
      | .ok s =>
        (.okR user_input (chatbot_clean raw)
           (execute_query_out (chatbot_clean raw) d) (pyStrip s),
         [.callGenerate, .callExecute (chatbot_clean raw), .callSummarizeModel])

/-!
## Helper lemmas about the validation gate
-/

theorem findForbidden_eq_none {q : String}
    (h : ∀ kw ∈ forbidden_keywords, substrB kw.data (pyLower q).data = false) :
    findForbidden (pyLower q) = none := by
  unfold findForbidden
  rw [List.find?_eq_none]
  intro kw hkw
  simp [h kw hkw]

/-- If the stripped lowercased query starts with `select`, the original query
is not whitespace-only (lowercasing fixes whitespace characters). -/
theorem strip_lower_nonempty {q : String}
    (h : prefB "select".data (pyStrip (pyLower q)).data = true) :
    (pyStripL q.data).isEmpty = false := by
  by_contra hc
  rw [Bool.not_eq_false, List.isEmpty_iff] at hc
  have hall := (pyStripL_eq_nil_iff q.data).mp hc
  have hall2 : ∀ c ∈ (pyLower q).data, pyIsSpace c = true := by
    intro c hcmem
    rcases List.mem_map.mp hcmem with ⟨c0, hc0, rfl⟩
    rw [toLower_of_space (hall c0 hc0)]
    exact hall c0 hc0
  have hnil : pyStripL (pyLower q).data = [] := (pyStripL_eq_nil_iff _).mpr hall2
  have h0 : pyStrip (pyLower q) = "" := by
    unfold pyStrip
    rw [hnil]
  rw [h0] at h
  exact absurd h (by decide)

/-- If a forbidden keyword occurs in the lowercased query, the original
query is not whitespace-only. -/
theorem strip_nonempty_of_keyword {q kw : String}
    (hmem : kw ∈ forbidden_keywords)
    (hsub : substrB kw.data (pyLower q).data = true) :
    (pyStripL q.data).isEmpty = false := by
  have hhead : ∃ c ∈ kw.data, pyIsSpace c = false := by
    fin_cases hmem <;> decide
  by_contra hc
  rw [Bool.not_eq_false, List.isEmpty_iff] at hc
  have hall := (pyStripL_eq_nil_iff q.data).mp hc
  obtain ⟨c, hcmem, hcns⟩ := hhead
  have hcin := substrB_mem hsub c hcmem
  rcases List.mem_map.mp hcin with ⟨c0, hc0, rfl⟩
  rw [toLower_of_space (hall c0 hc0)] at hcns
  rw [hall c0 hc0] at hcns
  exact absurd hcns (by decide)

/-!
## C10 — `validate_query` accepts with `True` or raises `QueryValidationError`
-/

/-- Claim C10: for every query and table set, `validate_query` either
returns `True` or raises a `QueryValidationError` carrying the rejection
reason; it never returns `False` and no other outcome exists. -/
theorem C10_validator_true_or_raises (q : String) (vt : List String) :
    validate_query q vt = .ok true ∨ ∃ msg, validate_query q vt = .error msg := by
  unfold validate_query
  repeat' split
  all_goals first
    | exact Or.inl rfl
    | exact Or.inr ⟨_, rfl⟩

/-!
## C2 — queries not starting with `select`
-/

/-- Counterexample to claim C2 as stated: `"drop"` and `"   "` do not start
with `select` (after trim, case-insensitively), yet the rejection reasons
are the forbidden-keyword message and the empty-query message — not
`"Only SELECT queries are allowed"`. The earlier emptiness and keyword
checks fire first, so the claimed "regardless of any other content" fails. -/
theorem C2_counterexample :
    prefB "select".data (pyStrip (pyLower "drop")).data = false ∧
    validate_query "drop" ["t"] = .error "Query contains forbidden operation: drop" ∧
    prefB "select".data (pyStrip (pyLower "   ")).data = false ∧
    validate_query "   " ["t"] = .error "Empty query is not allowed" := by
  exact ⟨by decide, rfl, by decide, rfl⟩

/-- Claim C2 (amended): for every candidate query that is not
whitespace-only and contains no forbidden keyword, if its trimmed
lowercased text does not start with `select` then `validate_query` rejects
with `"Only SELECT queries are allowed"`. -/
theorem C2_only_select_rejected (q : String) (vt : List String)
    (hne : (pyStripL q.data).isEmpty = false)
    (hkw : ∀ kw ∈ forbidden_keywords, substrB kw.data (pyLower q).data = false)
    (hsel : prefB "select".data (pyStrip (pyLower q)).data = false) :
    validate_query q vt = .error "Only SELECT queries are allowed" := by
  unfold validate_query
  rw [findForbidden_eq_none hkw]
  simp [hne, hsel]

/-- Witness for C2: `"show tables"` is keyword-free, non-empty, and does not
start with `select`; it is rejected with the SELECT-only message. -/
theorem C2_witness :
    validate_query "show tables" [] = .error "Only SELECT queries are allowed" :=
  C2_only_select_rejected "show tables" [] (by decide) (by decide) (by decide)

/-!
## C5 — table extraction and the "no tables" rejection
-/

/-- Counterexample to claim C5 as stated: in `"select * xfrom t"` the token
`from` occurs only inside the longer word `xfrom`, so a word-boundary
extraction would find nothing and the claim demands the
`"No valid tables found in query"` rejection; but the pattern
`(?:from|join)\s+(\w+)` has no left word boundary, the scan extracts `t`,
and the query is accepted. -/
theorem C5_counterexample :
    tablesInQuery (pyLower "select * xfrom t") = ["t"] ∧
    validate_query "select * xfrom t" ["t"] = .ok true := by
  exact ⟨rfl, rfl⟩

/-- Claim C5 (amended): the extracted referenced tables are the captures of
`(?:from|join)\s+(\w+)` on the lowercased query — no left word boundary,
so `from`/`join` count even as the tail of a longer word — and when this
set is empty on a non-whitespace, keyword-free query whose trimmed
lowercased text starts with `select`, `validate_query` rejects with
`"No valid tables found in query"`. -/
theorem C5_no_tables_rejected (q : String) (vt : List String)
    (hkw : ∀ kw ∈ forbidden_keywords, substrB kw.data (pyLower q).data = false)
    (hsel : prefB "select".data (pyStrip (pyLower q)).data = true)
    (hemp : tablesInQuery (pyLower q) = []) :
    validate_query q vt = .error "No valid tables found in query" := by
  unfold validate_query
  rw [findForbidden_eq_none hkw]
  simp [strip_lower_nonempty hsel, hsel, hemp]

/-- Witness for C5: `"select 1"` references no table and is rejected with
the no-tables message. -/
theorem C5_witness :
    validate_query "select 1" ["t"] = .error "No valid tables found in query" :=
  C5_no_tables_rejected "select 1" ["t"] (by decide) (by decide) (by decide)

/-!
## C1 — the acceptance property of the gate
-/

/-- Counterexample to claim C1 as stated: `"select 1"` starts with `select`,
contains no comment markers and no semicolon, and its extracted table set
is empty — hence trivially a subset of `valid_tables` — yet `validate_query`
rejects it with the no-tables message instead of accepting. -/
theorem C1_counterexample :
    tablesInQuery (pyLower "select 1") = [] ∧
    prefB "select".data (pyStrip (pyLower "select 1")).data = true ∧
    substrB "--".data "select 1".data = false ∧
    substrB "/*".data "select 1".data = false ∧
    "select 1".data.contains ';' = false ∧
    validate_query "select 1" ["t"] = .error "No valid tables found in query" := by
  exact ⟨rfl, by decide, by decide, by decide, by decide, rfl⟩

/-- Claim C1 (amended): `validate_query` accepts every query that — in
addition to the claimed conditions (starts with `select` after trim,
referenced tables a case-insensitive subset of `valid_tables`, no `--`,
no `/*`, no `;` before the final character) — also contains no forbidden
keyword as a substring, has a nonempty extracted table set, and matches
`from\s+\w+` somewhere. -/
theorem C1_validator_accepts (q : String) (vt : List String)
    (hkw : ∀ kw ∈ forbidden_keywords, substrB kw.data (pyLower q).data = false)
    (hsel : prefB "select".data (pyStrip (pyLower q)).data = true)
    (htab : (tablesInQuery (pyLower q)).isEmpty = false)
    (hsub : ∀ t ∈ tablesInQuery (pyLower q), t ∈ vt.map pyLower)
    (hfrom : hasFromClause (pyLower q).data = true)
    (hcm1 : substrB "--".data q.data = false)
    (hcm2 : substrB "/*".data q.data = false)
    (hsemi : q.data.dropLast.contains ';' = false) :
    validate_query q vt = .ok true := by
  have hinv : invalidTables (pyLower q) vt = [] := by
    unfold invalidTables
    apply List.filter_eq_nil_iff.mpr
    intro t ht
    simpa using List.mem_map.mp (hsub t ht)
  have hsemi2 : ';' ∉ q.data.dropLast := by
    intro hmem
    have hcont : q.data.dropLast.contains ';' = true := by
      simpa [List.elem_iff] using hmem
    exact absurd (hcont.symm.trans hsemi) (by decide)
  unfold validate_query
  rw [findForbidden_eq_none hkw]
  simp [strip_lower_nonempty hsel, hsel, htab, hinv, hfrom, hcm1, hcm2, hsemi, hsemi2]

/-- Witness for C1 (amended): `"select x from t"` against the table list
`["T"]` is accepted. -/
theorem C1_witness : validate_query "select x from t" ["T"] = .ok true :=
  C1_validator_accepts "select x from t" ["T"] (by decide) (by decide) (by decide)
    (by decide) (by decide) (by decide) (by decide) (by decide)

/-!
## C3 — the forbidden-keyword denylist
-/

/-- Claim C3: any query containing one of the nine forbidden keywords as a
case-insensitive substring is rejected, and the rejection reason names the
keyword the scan matched (the first hit in the denylist's order) — even
when the query is otherwise a valid SELECT. -/
theorem C3_forbidden_keyword_rejected (q : String) (vt : List String) (kw : String)
    (hmem : kw ∈ forbidden_keywords)
    (hsub : substrB kw.data (pyLower q).data = true) :
    ∃ k, k ∈ forbidden_keywords ∧ substrB k.data (pyLower q).data = true ∧
      validate_query q vt = .error ("Query contains forbidden operation: " ++ k) := by
  have hne : findForbidden (pyLower q) ≠ none := by
    intro hnone
    unfold findForbidden at hnone
    have := List.find?_eq_none.mp hnone kw hmem
    simp [hsub] at this
  obtain ⟨k, hk⟩ := Option.ne_none_iff_exists'.mp hne
  have hkmem : k ∈ forbidden_keywords := by
    unfold findForbidden at hk
    exact List.mem_of_find?_eq_some hk
  have hkp : substrB k.data (pyLower q).data = true := by
    unfold findForbidden at hk
    have h0 := List.find?_some hk
    simpa using h0
  refine ⟨k, hkmem, hkp, ?_⟩
  unfold validate_query
  rw [hk]
  simp [strip_nonempty_of_keyword hkmem hkp]

/-- Witness for C3: `"SELECT x FROM t; DROP TABLE t"` contains `drop`; the
validator rejects it naming a matched keyword (here `drop`). -/
theorem C3_witness :
    ∃ k, k ∈ forbidden_keywords ∧
      substrB k.data (pyLower "SELECT x FROM t; DROP TABLE t").data = true ∧
      validate_query "SELECT x FROM t; DROP TABLE t" ["t"] =
        .error ("Query contains forbidden operation: " ++ k) :=
  C3_forbidden_keyword_rejected "SELECT x FROM t; DROP TABLE t" ["t"] "drop"
    (by decide) (by decide)

/-!
## C4 — the orchestrator's validation-rejection envelope
-/

/-- Concrete oracle outcomes exhibiting a validation rejection: generation
yields `"delete from t"`, the schema has table `t`, execution is never
reached. -/
def C4_oracles : Oracles :=
  ⟨.ok "delete from t", .ok ["t"], fun _ => .error (.otherError "not reached")⟩

/-- Counterexample to claim C4 as stated: on a validation rejection the
response has status 400 and carries the rejection reason, but the envelope
has exactly the keys `status`, `error`, `user_input` — the rejected SQL
text (`"delete from t"`) appears nowhere in it, contradicting "includes
... the rejected SQL query text". -/
theorem C4_counterexample :
    (post (some "hi") C4_oracles).1 =
      ⟨400, [("status", .vs "error"),
             ("error", .vs "Query contains forbidden operation: delete"),
             ("user_input", .vs "hi")]⟩ ∧
    substrB "delete from t".data "Query contains forbidden operation: delete".data = false ∧
    substrB "delete from t".data "hi".data = false := by
  exact ⟨rfl, by decide, by decide⟩

/-- Claim C4 (amended): whenever validation rejects the generated query, the
orchestrator responds with status 400 and an envelope containing the
status marker, the rejection reason and the echoed user input — but not
the rejected SQL text, which appears in no field of that envelope. -/
theorem C4_validation_envelope (ui sql msg : String) (tables : List String) (o : Oracles)
    (hui : ui ≠ "")
    (hgen : o.genQuery = .ok sql)
    (htab : o.tableNames = .ok tables)
    (hval : validate_query sql tables = .error msg) :
    post (some ui) o =
      (⟨400, [("status", .vs "error"), ("error", .vs msg), ("user_input", .vs ui)]⟩,
       [.callGenerate, .callGetTables, .callValidate sql]) := by
  simp only [post]
  rw [if_neg hui]
  simp only [hgen, htab, hval, errEnvelope]

/-- Witness for C4 (amended): the concrete oracles of `C4_oracles` produce
exactly the 400 envelope with the keyword-rejection reason. -/
theorem C4_witness :
    post (some "hi") C4_oracles =
      (⟨400, [("status", .vs "error"),
              ("error", .vs "Query contains forbidden operation: delete"),
              ("user_input", .vs "hi")]⟩,
       [.callGenerate, .callGetTables, .callValidate "delete from t"]) :=
  C4_validation_envelope "hi" "delete from t"
    "Query contains forbidden operation: delete" ["t"] C4_oracles
    (by decide) rfl rfl rfl

/-!
## C7 — missing or empty input short-circuits
-/

/-- Claim C7: for a missing or empty `user_input` the handler answers 400
with body exactly `{"error": "No input provided"}` and performs no
external call at all — no generation, no table listing, no validation, no
execution. -/
theorem C7_no_input_short_circuit (o : Oracles) :
    post none o = (⟨400, [("error", .vs "No input provided")]⟩, []) ∧
    post (some "") o = (⟨400, [("error", .vs "No input provided")]⟩, []) := by
  exact ⟨rfl, rfl⟩

/-!
## C9 — the chatbot-module pipeline never validates
-/

/-- Claim C9: whenever generation succeeds with raw text `raw`,
`process_user_input` hands the cleaned statement `chatbot_clean raw`
straight to `cursor.execute` (the `callExecute` event is in its trace) and
the validation gate is never invoked in this pipeline (no `callValidate`
event ever appears), for any generated statement including non-SELECT
ones. -/
theorem C9_pipeline_skips_validation (ui : String) (o : ChatOracles) (raw : String)
    (hgen : o.genRaw = .ok raw) :
    Call.callExecute (chatbot_clean raw) ∈ (process_user_input ui o).2 ∧
    ∀ q, Call.callValidate q ∉ (process_user_input ui o).2 := by
  simp only [process_user_input, hgen]
  cases hdb : o.dbRun (chatbot_clean raw) with
  | error e => constructor <;> simp
  | ok d =>
    cases hs : o.sumRaw with
    | error e => constructor <;> simp
    | ok s => constructor <;> simp

/-- Concrete oracles for C9: the model proposes a destructive non-SELECT
statement, the database executes it and reports 3 affected rows. -/
def C9_oracles : ChatOracles :=
  ⟨.ok "DROP TABLE users", fun _ => .ok ⟨[], [], 3⟩, .ok "done"⟩

/-- Witness for C9: with the model output `"DROP TABLE users"`, the cleaned
statement `"DROP TABLE users;"` is executed and no validation call occurs. -/
theorem C9_witness :
    Call.callExecute (chatbot_clean "DROP TABLE users") ∈
      (process_user_input "x" C9_oracles).2 ∧
    ∀ q, Call.callValidate q ∉ (process_user_input "x" C9_oracles).2 :=
  C9_pipeline_skips_validation "x" C9_oracles "DROP TABLE users" rfl

/-!
## C8 — the deterministic summarizer
-/

/-- Whether the value picked by the price loop can be formatted by `:.2f`
without raising: in the modelled domain only an integer (non-null,
non-string) value can. -/
def priceTypeOk : Option Value → Bool
  | some (.vint _) => true
  | some _ => false
  | none => true

theorem formatRow_isSome {columns : List String} {row : List Value}
    (h1 : columns.length ≤ row.length)
    (h2 : priceTypeOk (findPrice (columns.zip row) priceFields) = true) :
    (formatRow columns row).isSome = true := by
  have hn : ¬ row.length < columns.length := by omega
  cases hfp : findPrice (columns.zip row) priceFields with
  | none => simp [formatRow, rowDict, hn, hfp]
  | some v =>
    cases v with
    | vnull => rw [hfp] at h2; simp [priceTypeOk] at h2
    | vint n => simp [formatRow, rowDict, hn, hfp, fmtPrice]
    | vstr s => rw [hfp] at h2; simp [priceTypeOk] at h2

theorem mapRows_isSome {α β : Type} (f : α → Option β) :
    ∀ l : List α, (∀ x ∈ l, (f x).isSome = true) → ∃ ys, mapRows f l = some ys := by
  intro l
  induction l with
  | nil => exact fun _ => ⟨[], rfl⟩
  | cons a as ih =>
    intro h
    obtain ⟨b, hb⟩ := Option.isSome_iff_exists.mp (h a (by simp))
    obtain ⟨ys, hys⟩ := ih (fun x hx => h x (by simp [hx]))
    refine ⟨b :: ys, ?_⟩
    simp [mapRows, hb, hys]

/-- Claim C8: the deterministic summarizer returns the fixed
`"No results found."` message on zero rows for any column list (and cannot
raise there), and on a nonempty result set whose price-column values are
numeric or null it returns a summary whose first line is exactly
`Found N result(s):` with the correct singular/plural form. -/
theorem C8_summarizer_header :
    (∀ columns, format_summary [] columns = some "No results found.") ∧
    (∀ (results : List (List Value)) (columns : List String),
      results ≠ [] →
      (∀ row ∈ results, columns.length ≤ row.length ∧
        priceTypeOk (findPrice (columns.zip row) priceFields) = true) →
      ∃ lines, format_summary results columns =
        some (pyJoin "\n" (headerStr results.length :: lines))) := by
  constructor
  · intro columns
    rfl
  · intro results columns hne hok
    have hrows : ∀ row ∈ results, ((formatRow columns) row).isSome = true :=
      fun row hr => formatRow_isSome (hok row hr).1 (hok row hr).2
    obtain ⟨lines, hlines⟩ := mapRows_isSome (formatRow columns) results hrows
    have hie : results.isEmpty = false := by
      cases results with
      | nil => exact absurd rfl hne
      | cons _ _ => rfl
    exact ⟨lines, by simp [format_summary, hie, hlines]⟩

/-- Witness for C8: the empty result set over `["Name"]` yields the fixed
message, and a one-row result set yields a summary headed `Found 1 result:`. -/
theorem C8_witness :
    format_summary [] ["Name"] = some "No results found." ∧
    ∃ lines, format_summary [[Value.vstr "Chain", Value.vint 20]] ["Name", "ListPrice"] =
      some (pyJoin "\n" (headerStr 1 :: lines)) :=
  ⟨C8_summarizer_header.1 ["Name"],
   C8_summarizer_header.2 [[Value.vstr "Chain", Value.vint 20]] ["Name", "ListPrice"]
     (by decide) (by decide)⟩

/-!
## C6 — the invalid-table rejection message
-/

theorem data_append (a b : String) : (a ++ b).data = a.data ++ b.data := rfl

/-- A member of a joined list is a substring of the join. -/
theorem substrB_pyJoin {t : String} {l : List String} (sep : String) (h : t ∈ l) :
    substrB t.data (pyJoin sep l).data = true := by
  induction l with
  | nil => cases h
  | cons x xs ih =>
    cases xs with
    | nil =>
      rcases List.mem_singleton.mp h with rfl
      simpa [pyJoin] using substrB_self t.data
    | cons y ys =>
      rcases List.mem_cons.mp h with rfl | h2
      · have hdata : (pyJoin sep (t :: y :: ys)).data =
            t.data ++ (sep ++ pyJoin sep (y :: ys)).data := by
          simp [pyJoin, data_append, List.append_assoc]
        rw [hdata]
        exact substrB_append_right _ (substrB_self t.data)
      · have hdata : (pyJoin sep (x :: y :: ys)).data =
            (x ++ sep).data ++ (pyJoin sep (y :: ys)).data := by
          simp [pyJoin, data_append, List.append_assoc]
        rw [hdata]
        exact substrB_append_left _ (ih h2)

/-- A substring of the joined middle part is a substring of the four-part
concatenation `A ++ J ++ D ++ T`. -/
theorem substrB_concat_mid (A J D T : String) {t : String}
    (hj : substrB t.data J.data = true) :
    substrB t.data (A ++ J ++ D ++ T).data = true := by
  have h3 := substrB_append_right T.data
    (substrB_append_right D.data (substrB_append_left A.data hj))
  exact h3

/-- A substring of the final part is a substring of the four-part
concatenation `A ++ J ++ D ++ T`. -/
theorem substrB_concat_tail (A J D T : String) {t : String}
    (ht : substrB t.data T.data = true) :
    substrB t.data (A ++ J ++ D ++ T).data = true := by
  have h1 := substrB_append_left ((A ++ J ++ D).data) ht
  exact h1

/-- Counterexample to claim C6 as stated: `"select * from created_x"`
references the table `created_x`, which is not in the valid set `["t"]`;
the claim demands a rejection reason listing `created_x`, but the earlier
forbidden-keyword check fires on the substring `create`, and its message
does not mention the invalid table at all. -/
theorem C6_counterexample :
    invalidTables (pyLower "select * from created_x") ["t"] = ["created_x"] ∧
    validate_query "select * from created_x" ["t"] =
      .error "Query contains forbidden operation: create" ∧
    substrB "created_x".data "Query contains forbidden operation: create".data = false := by
  exact ⟨rfl, rfl, by decide⟩

/-- Claim C6 (amended): on a non-whitespace, keyword-free query starting
with `select` whose referenced tables include at least one name outside
`valid_tables` (case-insensitively), `validate_query` rejects with the
invalid-tables message, which (a) contains every invalid table name,
(b) contains, for each invalid name similar to some valid table by
substring containment, its full "did you mean" suggestion line, and
(c) when no invalid name yields a suggestion, contains the enumeration of
the sorted valid-table list. -/
theorem C6_invalid_tables_envelope (q : String) (vt : List String)
    (hkw : ∀ kw ∈ forbidden_keywords, substrB kw.data (pyLower q).data = false)
    (hsel : prefB "select".data (pyStrip (pyLower q)).data = true)
    (hinv : invalidTables (pyLower q) vt ≠ []) :
    validate_query q vt = .error (invalidMsg (pyLower q) vt) ∧
    (∀ t ∈ invalidTables (pyLower q) vt,
      substrB t.data (invalidMsg (pyLower q) vt).data = true) ∧
    (∀ t ∈ invalidTables (pyLower q) vt, similarOf t vt ≠ [] →
      substrB (suggestionLine t vt).data (invalidMsg (pyLower q) vt).data = true) ∧
    (suggestionsOf (pyLower q) vt = [] →
      substrB ("Valid tables are: " ++ pyJoin ", " (pySorted vt)).data
        (invalidMsg (pyLower q) vt).data = true) := by
  refine ⟨?_, ?_, ?_, ?_⟩
  · have htab : (tablesInQuery (pyLower q)).isEmpty = false := by
      cases htq : tablesInQuery (pyLower q) with
      | nil =>
        exact absurd (by unfold invalidTables; rw [htq]; rfl) hinv
      | cons _ _ => rfl
    have hinvB : (invalidTables (pyLower q) vt).isEmpty = false := by
      cases hiv : invalidTables (pyLower q) vt with
      | nil => exact absurd hiv hinv
      | cons _ _ => rfl
    unfold validate_query
    rw [findForbidden_eq_none hkw]
    simp [strip_lower_nonempty hsel, hsel, htab, hinvB]
  · intro t ht
    exact substrB_concat_mid "Invalid tables in query: " _ ". " _
      (substrB_pyJoin ", " ht)
  · intro t ht hsim
    have hsimB : (similarOf t vt).isEmpty = false := by
      cases hsv : similarOf t vt with
      | nil => exact absurd hsv hsim
      | cons _ _ => rfl
    have hmemS : suggestionLine t vt ∈ suggestionsOf (pyLower q) vt := by
      unfold suggestionsOf
      apply List.mem_filterMap.mpr
      exact ⟨t, ht, by simp [hsimB]⟩
    have hSB : (suggestionsOf (pyLower q) vt).isEmpty = false := by
      cases hsv : suggestionsOf (pyLower q) vt with
      | nil => rw [hsv] at hmemS; cases hmemS
      | cons _ _ => rfl
    have hT : invalidMsg (pyLower q) vt =
        "Invalid tables in query: " ++ pyJoin ", " (invalidTables (pyLower q) vt) ++ ". " ++
          ("\n" ++ pyJoin "\n" (suggestionsOf (pyLower q) vt)) := by
      unfold invalidMsg
      simp [hSB]
    rw [hT]
    exact substrB_concat_tail _ _ _ _
      (substrB_append_left "\n".data (substrB_pyJoin "\n" hmemS))
  · intro hs0
    have hSB : (suggestionsOf (pyLower q) vt).isEmpty = true := by
      rw [hs0]; rfl
    have hT : invalidMsg (pyLower q) vt =
        "Invalid tables in query: " ++ pyJoin ", " (invalidTables (pyLower q) vt) ++ ". " ++
          ("\nValid tables are: " ++ pyJoin ", " (pySorted vt)) := by
      unfold invalidMsg
      simp [hSB]
    rw [hT]
    apply substrB_concat_tail
    apply (substrB_iff _ _).mpr
    refine ⟨['\n'], [], ?_⟩
    simp [data_append]

/-- Witness for C6: `"select * from product"` against
`["production_product"]` — the invalid name `product` is a substring of
the valid table, so the rejection message carries the suggestion. -/
theorem C6_witness :
    validate_query "select * from product" ["production_product"] =
      .error (invalidMsg (pyLower "select * from product") ["production_product"]) ∧
    (∀ t ∈ invalidTables (pyLower "select * from product") ["production_product"],
      substrB t.data
        (invalidMsg (pyLower "select * from product") ["production_product"]).data = true) ∧
    (∀ t ∈ invalidTables (pyLower "select * from product") ["production_product"],
      similarOf t ["production_product"] ≠ [] →
      substrB (suggestionLine t ["production_product"]).data
        (invalidMsg (pyLower "select * from product") ["production_product"]).data = true) ∧
    (suggestionsOf (pyLower "select * from product") ["production_product"] = [] →
      substrB ("Valid tables are: " ++ pyJoin ", " (pySorted ["production_product"])).data
        (invalidMsg (pyLower "select * from product") ["production_product"]).data = true) :=
  C6_invalid_tables_envelope "select * from product" ["production_product"]
    (by decide) (by decide) (by decide)
